import Mathlib

/-!
Shallow embedding of the ScopeSim aperture-geometry engine and ordered-effect
container (`scopesim/effects/apertures.py` and
`scopesim/optics/optical_element.py`), together with theorems settling the
frozen claims about them.

Conventions:
* Python exceptions are modelled by `Except PyErr`.
* Python `None`-or-object slots are modelled by `Option`.
* NumPy floating-point arithmetic is modelled by exact real arithmetic (`ℝ`);
  numeric literals from the source (e.g. `1.41421356`) are kept verbatim.
* The external `matplotlib.path.Path(corners).contains_points(·, radius=0)`
  point-in-polygon routine is not part of this repository; it is abstracted
  as a function parameter `contains : List (ℝ × ℝ) → ℝ × ℝ → Bool`.
-/

/-- Python exception values raised by the modelled code. -/
inductive PyErr : Type where
  /-- `KeyError(k)`: dictionary lookup with an unknown key `k`. -/
  | keyError (k : String)
  /-- `ZeroDivisionError`, raised by `360 / n` when `n = 0`. -/
  | zeroDivision
  /-- `ValueError`, carrying the offending operand's type name
      (`ApertureList.__add__` raises it for a non-`ApertureList` operand). -/
  | valueError (typeName : String)
deriving DecidableEq, Repr

/-! ## Effect container: `OpticalElement` (`optical_element.py`) -/

/-- The `meta["z_order"]` marker of an effect: a single integer or a
sequence of integers (Python `int` vs `list`/`tuple`). -/
inductive ZOrderVal : Type where
  | scalar (z : ℤ)
  | seq (zs : List ℤ)
deriving DecidableEq, Repr

/-- An effect as seen by `OpticalElement`: its distinguishing payload (here a
name) and the optional `"z_order"` entry of its `meta` dict (`none` models a
meta dict without the `"z_order"` key). -/
structure Effect where
  name : String
  z_order : Option ZOrderVal
deriving DecidableEq, Repr

/-- `OpticalElement`: an ordered container of effects (`self.effects`). -/
structure OpticalElement where
  effects : List Effect
deriving DecidableEq, Repr

/-- The possible arguments of `OpticalElement.get_z_order_effects`:
an `int`, a 2-element `tuple`/`list`, or anything else (the `else` branch). -/
inductive ZLevelArg : Type where
  | int (z : ℤ)
  | pair (zmin zmax : ℤ)
  | other
deriving DecidableEq, Repr

/-- The loop-body test of `get_z_order_effects` (lines 94-101 of
`optical_element.py`): the effect is kept iff `"z_order" in eff.meta` and the
marker (scalar compared directly, any element for a sequence) lies in
`[zmin, zmax]`, both ends inclusive. -/
def zOrderInRange (zmin zmax : ℤ) : Option ZOrderVal → Bool
  | none => false
  | some (.seq zs) => zs.any (fun zi => decide (zmin ≤ zi) && decide (zi ≤ zmax))
  | some (.scalar z) => decide (zmin ≤ z) && decide (z ≤ zmax)

/-- `OpticalElement.get_z_order_effects(z_level)` (lines 83-103):
derive `(zmin, zmax)` from the argument (`int z` ↦ `(z, z+99)`, 2-tuple ↦
itself, anything else ↦ `(0, 600)`), then accumulate, in insertion order,
the effects whose `z_order` marker intersects the range. -/
def get_z_order_effects (oe : OpticalElement) (z_level : ZLevelArg) : List Effect :=
  let zr : ℤ × ℤ :=
    match z_level with
    | .int z => (z, z + 99)
    | .pair zmn zmx => (zmn, zmx)
    | .other => (0, 600)
  oe.effects.foldl
    (fun acc eff => if zOrderInRange zr.1 zr.2 eff.z_order then acc ++ [eff] else acc) []

/-- Spec-side reference definition, written from the spec's words for the
refinement comparison: the range selected by a `getZOrderEffects` argument
("a single integer `z` interpreted as range `[z, z+99]`, a 2-tuple
`(zmin,zmax)`, or nothing, defaulting to `[0,600]`"). -/
def specZRange : ZLevelArg → ℤ × ℤ
  | .int z => (z, z + 99)
  | .pair zmn zmx => (zmn, zmx)
  | .other => (0, 600)

/-- Spec-side reference definition, written from the spec's words for the
refinement comparison: "every effect whose priority marker — if scalar,
compared directly; if a sequence, if ANY element falls in range — intersects
`[zmin,zmax]` inclusive on both ends. Effects lacking a priority marker
entirely are excluded." -/
def specMarkerIntersects (zmin zmax : ℤ) (e : Effect) : Bool :=
  match e.z_order with
  | none => false
  | some (.scalar z) => decide (zmin ≤ z) && decide (z ≤ zmax)
  | some (.seq zs) => zs.any (fun zi => decide (zmin ≤ zi) && decide (zi ≤ zmax))

/-- A Python value handed to `OpticalElement.add_effect` / `__add__`:
either an actual `Effect` instance or a value of any other type. -/
inductive PyValue : Type where
  | eff (e : Effect)
  | other (typeName : String)
deriving DecidableEq, Repr

/-- `OpticalElement.add_effect(effect)` (lines 76-78): append iff
`isinstance(effect, efs.Effect)`; otherwise do nothing (no exception). -/
def add_effect (oe : OpticalElement) : PyValue → OpticalElement
  | .eff e => ⟨oe.effects ++ [e]⟩
  | .other _ => oe

/-- `OpticalElement.__add__(other)` (lines 117-118): calls `add_effect` and
has no `return` statement, so the expression value is Python `None`.
The result pair is (expression value, mutated receiver). -/
def OpticalElement.addOp (oe : OpticalElement) (v : PyValue) :
    Option OpticalElement × OpticalElement :=
  (none, add_effect oe v)

/-! ## `ApertureList.__add__` (`apertures.py`, lines 266-274) -/

/-- The operand of `ApertureList.__add__`: another `ApertureList` (carrying
its backing table's rows) or a value of any other type. -/
inductive APAddArg (ρ : Type) : Type where
  | apList (rows : List ρ)
  | other (typeName : String)
deriving DecidableEq, Repr

/-- `ApertureList.__add__(other)`: if `other` is an `ApertureList`,
`self.table = vstack([self.table, other.table])` and `return self`
(the receiver's table becomes its rows followed by the operand's rows);
otherwise `raise ValueError(...)` naming the operand's type, with the
receiver's table untouched. The `.ok` payload is the receiver's new table. -/
def ApertureList.addRows {ρ : Type} (rows : List ρ) :
    APAddArg ρ → Except PyErr (List ρ)
  | .apList rows2 => .ok (rows ++ rows2)
  | .other t => .error (.valueError t)

/-! ## `ApertureMask` cached `header` / `mask` properties
(`apertures.py`, lines 111-139) -/

/-- An astropy table as the properties see it: which columns it exposes
(`colnames`) plus an opaque payload standing for the cell data. -/
structure PyTable (β : Type) where
  colnames : List String
  payload : β
deriving DecidableEq, Repr

/-- The mutable state of an `ApertureMask` that the `header`/`mask`
properties read and write: `self._header` (initially `None`, only ever
`None` or a `fits.Header`, so `isinstance(self._header, fits.Header)` is
exactly `Option.isSome`), `self._mask`, and `self.table`. -/
structure ApMaskState (H M β : Type) where
  _header : Option H
  _mask : Option M
  table : PyTable β
deriving DecidableEq, Repr

/-- `ApertureMask.header` (lines 115-120): if `self._header` is not a
`fits.Header` and the table has both an `"x"` and a `"y"` column, compute
`self._header = self.get_header()`; return `self._header`. The computation
`get_header` is abstracted as a function of the table. Result pair:
(returned value, post-access state). -/
def ApertureMask.header {H M β : Type} (get_header : PyTable β → H)
    (s : ApMaskState H M β) : Option H × ApMaskState H M β :=
  if s._header.isNone && s.table.colnames.contains "x"
      && s.table.colnames.contains "y" then
    let h := get_header s.table
    (some h, { s with _header := some h })
  else (s._header, s)

/-- `ApertureMask.mask` (lines 134-139): the guard tests
`isinstance(self._header, fits.Header)` — the HEADER cache slot, not
`self._mask` — and on success runs `self._mask = self.get_mask()`; it
returns `self._mask`. `get_mask` may itself return `None` (when
`meta["no_mask"]` is not `False`), hence `Option M`. -/
def ApertureMask.mask {H M β : Type} (get_mask : PyTable β → Option M)
    (s : ApMaskState H M β) : Option M × ApMaskState H M β :=
  if s._header.isNone && s.table.colnames.contains "x"
      && s.table.colnames.contains "y" then
    let m := get_mask s.table
    (m, { s with _mask := m })
  else (s._mask, s)

/-! ## Polygon constructor (`apertures.py`, lines 283-317, 337-343) -/

/-- Value of a digit string, as Python's numeric parsing accumulates it. -/
def digitsToNat (cs : List Char) : ℕ :=
  cs.foldl (fun a c => a * 10 + (c.toNat - 48)) 0

/-- All characters are decimal digits. -/
def allDigits (cs : List Char) : Bool := cs.all Char.isDigit

/-- Python's `int(float(shape))` for a string `shape`, restricted to plain
decimal literals `[+-]? digits [. digits]` (the only string forms the
aperture tables use): the integer part, truncated toward zero, with its
sign; `none` when `float(shape)` raises `ValueError` (scientific notation
and the like are out of the modelled input space). -/
def parseDecimal (s : String) : Option ℤ :=
  let cs := s.data
  let sgn : ℤ := if cs.take 1 = ['-'] then -1 else 1
  let body := if cs.take 1 = ['-'] || cs.take 1 = ['+'] then cs.drop 1 else cs
  let ip := body.takeWhile (fun c => c ≠ '.')
  let rest := body.dropWhile (fun c => c ≠ '.')
  match rest with
  | [] => if ip ≠ [] ∧ allDigits ip then some (sgn * digitsToNat ip) else none
  | _ :: fp =>
      if (ip ≠ [] ∨ fp ≠ []) ∧ allDigits ip ∧ allDigits fp ∧ fp.all (fun c => c ≠ '.')
      then some (sgn * digitsToNat ip) else none

/-- The `shape` cell of an aperture-list row: Python `str` or `int`. -/
inductive ShapeVal : Type where
  | str (s : String)
  | int (z : ℤ)
deriving DecidableEq, Repr

/-- The `try: shape = int(float(shape)) except: pass` step (lines 289-293):
an `int` stays itself, a parseable string becomes the parsed `int`, and a
parse failure is swallowed, leaving the string unchanged. -/
def parsedShape : ShapeVal → ShapeVal
  | .int z => .int z
  | .str s =>
      match parseDecimal s with
      | some z => .int z
      | none => .str s

/-- The `n_corners` dict lookup `n = n_corners[shape]` (lines 288, 291, 297):
base keys `"rect" ↦ 4`, `"hex" ↦ 6`, `"oct" ↦ 8`, `"round" ↦ n_round`; a
successfully parsed integer was inserted as its own key (`n_corners[shape] =
shape`), so every `.int z` maps to `z`; any other string is a `KeyError`. -/
def nCornersLookup (n_round : ℤ) : ShapeVal → Option ℤ
  | .str s =>
      if s = "rect" then some 4
      else if s = "hex" then some 6
      else if s = "oct" then some 8
      else if s = "round" then some n_round
      else none
  | .int z => some z

/-- Python's substring test `pat in s` for strings. -/
def containsSubstr (s pat : String) : Bool :=
  (List.range (s.length + 1)).any
    (fun i => ((s.data.drop i).take pat.data.length) == pat.data)

/-- The guard `isinstance(shape, str) and "rect" in shape` (line 299),
applied to the post-parse shape value. -/
def isRectLike : ShapeVal → Bool
  | .str s => containsSubstr s "rect"
  | .int _ => false

/-- The key text carried by the `KeyError` of the `n_corners` lookup. -/
def shapeKeyName : ShapeVal → String
  | .str s => s
  | .int z => toString z

/-- `np.pi / 180` (line 312). -/
noncomputable def deg2rad : ℝ := Real.pi / 180

/-- `points_on_a_circle(n, x0, y0, dx, dy, offset)` (lines 311-317):
`d_angle = np.arange(0, 360, 360/n) + offset` (for `n ≥ 1` these are the
`n` angles `k·(360/n) + offset`, `k < n`; a non-positive `n` gives an empty
`arange`), `x = x0 + dx·cos(d_angle·deg2rad)`, `y = y0 + dy·sin(...)`. -/
noncomputable def points_on_a_circle (n : ℤ) (x0 y0 dx dy offset : ℝ) :
    List ℝ × List ℝ :=
  let d_angle : List ℝ :=
    (List.range n.toNat).map (fun (k : ℕ) => (k : ℝ) * (360 / (n : ℝ)) + offset)
  (d_angle.map (fun θ => x0 + dx * Real.cos (θ * deg2rad)),
   d_angle.map (fun θ => y0 + dy * Real.sin (θ * deg2rad)))

/-- `np.average` of a coordinate array (line 306). -/
noncomputable def npAverage (l : List ℝ) : ℝ := l.sum / l.length

/-- `rotate(x, y, x0, y0, angle)` (lines 337-343): rotate every point about
`(x0, y0)` by `angle` degrees, with the source's conversion constant
`angle / 57.29578`. -/
noncomputable def rotate (x y : List ℝ) (x0 y0 angle : ℝ) : List ℝ × List ℝ :=
  let angle_rad := angle / 57.29578
  ((x.zip y).map (fun p =>
      x0 + (p.1 - x0) * Real.cos angle_rad - (p.2 - y0) * Real.sin angle_rad),
   (x.zip y).map (fun p =>
      y0 + (p.1 - x0) * Real.sin angle_rad + (p.2 - y0) * Real.cos angle_rad))

/-- `make_aperture_polygon(left, right, top, bottom, angle, shape, **kwargs)`
(lines 283-308), with `n_round` and `offset` already extracted from
`kwargs` (lines 285-286). Steps, in source order: swallize the integer
parse of `shape`; centre and half-extents; `n = n_corners[shape]`
(`KeyError` for an unknown string); the `"rect" in shape` special case
scaling `dx`, `dy` by `1.41421356` and adding `45` to `offset`;
`points_on_a_circle` (whose `360/n` raises `ZeroDivisionError` for
`n = 0`); optional rotation about the vertex mean when `angle != 0`. -/
noncomputable def make_aperture_polygon (left right top bottom angle : ℝ)
    (shape : ShapeVal) (n_round : ℤ := 32) (offset : ℝ := 0) :
    Except PyErr (List ℝ × List ℝ) :=
  let shape2 := parsedShape shape
  let x0 := 0.5 * (right + left)
  let y0 := 0.5 * (top + bottom)
  let dx := 0.5 * (right - left)
  let dy := 0.5 * (top - bottom)
  match nCornersLookup n_round shape2 with
  | none => .error (.keyError (shapeKeyName shape2))
  | some n =>
      let dx2 := if isRectLike shape2 then dx * 1.41421356 else dx
      let dy2 := if isRectLike shape2 then dy * 1.41421356 else dy
      let offset2 := if isRectLike shape2 then offset + 45 else offset
      if n = 0 then .error .zeroDivision
      else
        let xy := points_on_a_circle n x0 y0 dx2 dy2 offset2
        if angle = 0 then .ok xy
        else .ok (rotate xy.1 xy.2 (npAverage xy.1) (npAverage xy.2) angle)

/-! ## Rasterizer (`apertures.py`, lines 320-334) -/

/-- `np.max` of a nonempty array (totalised with `0` on `[]`; the source
always applies it to nonempty coordinate arrays). -/
def npmax : List ℝ → ℝ
  | [] => 0
  | a :: l => l.foldl max a

/-- `np.min`, as `npmax`. -/
def npmin : List ℝ → ℝ
  | [] => 0
  | a :: l => l.foldl min a

/-- `np.linspace(a, b, num)`: `num` evenly spaced samples with both
endpoints included (`num = 1` gives `[a]`). -/
noncomputable def linspace (a b : ℝ) : ℕ → List ℝ
  | 0 => []
  | 1 => [a]
  | num => (List.range num).map (fun (i : ℕ) => a + (b - a) * (i : ℝ) / ((num : ℝ) - 1))

/-- `.reshape((n2, n1))` of a flat list whose length is `n2 * n1`:
`n2` consecutive rows of `n1` entries. -/
def reshape2 {γ : Type} : ℕ → ℕ → List γ → List (List γ)
  | 0, _, _ => []
  | n2 + 1, n1, flat => flat.take n1 :: reshape2 n2 n1 (flat.drop n1)

/-- `mask_from_coords(x, y, pixel_scale)` (lines 320-334):
`naxis1 = int(ceil((max x − min x)/pixel_scale))`, `naxis2` likewise for
`y`; the grid `coords = [(xi, yi) for xi in xrange for yi in yrange]` over
`linspace` ranges; the external
`Path(corners).contains_points(coords, radius=0)` point-in-polygon test is
abstracted as `contains` applied to the vertex list `zip x y`; the result
is reshaped to `(naxis2, naxis1)`. -/
noncomputable def mask_from_coords (contains : List (ℝ × ℝ) → ℝ × ℝ → Bool)
    (x y : List ℝ) (pixel_scale : ℝ) : List (List Bool) :=
  let naxis1 := (Int.ceil ((npmax x - npmin x) / pixel_scale)).toNat
  let naxis2 := (Int.ceil ((npmax y - npmin y) / pixel_scale)).toNat
  let xrange := linspace (npmin x) (npmax x) naxis1
  let yrange := linspace (npmin y) (npmax y) naxis2
  let coords := xrange.flatMap (fun xi => yrange.map (fun yi => (xi, yi)))
  let corners := x.zip y
  reshape2 naxis2 naxis1 (coords.map (contains corners))

/-- Twice the signed (shoelace) area of the polygon with vertex coordinate
lists `x`, `y`, used to compare the content of the constructed polygons. -/
def polygonDoubleArea (x y : List ℝ) : ℝ :=
  let pts := x.zip y
  match pts with
  | [] => 0
  | p :: _ =>
      ((pts.zip (pts.drop 1 ++ [p])).map
        (fun q => q.1.1 * q.2.2 - q.2.1 * q.1.2)).sum
/-! ## Helper lemmas -/

/-- Accumulating `acc ++ [e]` for each element passing `p` is filtering. -/
theorem foldl_append_filter {α : Type} (p : α → Bool) :
    ∀ (l acc : List α),
      l.foldl (fun a e => if p e then a ++ [e] else a) acc = acc ++ l.filter p := by
  intro l
  induction l with
  | nil => intro acc; simp
  | cons x xs ih =>
      intro acc
      by_cases h : p x <;> simp [h, ih, List.filter_cons]

/-- The spec's marker test coincides with the code's loop-body test. -/
theorem specMarkerIntersects_eq (zmin zmax : ℤ) (e : Effect) :
    specMarkerIntersects zmin zmax e = zOrderInRange zmin zmax e.z_order := by
  rcases e with ⟨n, z⟩
  rcases z with _ | zv
  · rfl
  · rcases zv with z | zs <;> rfl

/-! ## Claims -/

/-- C1: `get_z_order_effects` selects `[z, z+99]` for an integer argument,
`(zmin, zmax)` for a pair, `[0, 600]` otherwise, and returns, in insertion
order, exactly the effects whose `z_order` marker (scalar compared directly,
a sequence if any element is in range, both ends inclusive) intersects the
range, excluding effects without a marker; in particular, over effects with
markers `80`, `[80, 280]`, `281` and none, the call with `80` returns
exactly the first two, in insertion order. -/
theorem C1_get_z_order_effects_spec :
    (∀ (oe : OpticalElement) (arg : ZLevelArg),
        get_z_order_effects oe arg =
          oe.effects.filter
            (fun e => specMarkerIntersects (specZRange arg).1 (specZRange arg).2 e))
    ∧ get_z_order_effects
        ⟨[⟨"atmo", some (.scalar 80)⟩, ⟨"apmask", some (.seq [80, 280])⟩,
          ⟨"det", some (.scalar 281)⟩, ⟨"misc", none⟩]⟩ (.int 80)
      = [⟨"atmo", some (.scalar 80)⟩, ⟨"apmask", some (.seq [80, 280])⟩] := by
  constructor
  · intro oe arg
    have hb := foldl_append_filter
      (fun e => zOrderInRange (specZRange arg).1 (specZRange arg).2 e.z_order)
      oe.effects []
    cases arg <;>
      simp only [get_z_order_effects, specZRange] at hb ⊢ <;>
      · rw [hb]
        simp [specMarkerIntersects_eq]
  · decide

/-- C7: `ApertureList.__add__` with another `ApertureList` appends the
operand's rows to the receiver's rows in order (`m + k` rows) and returns
the mutated receiver; any other operand raises a `ValueError` naming its
type, leaving the receiver unchanged; concretely, 3 rows plus 2 rows give
the 5 rows in original relative order. -/
theorem C7_apertureList_add :
    (∀ (ρ : Type) (a b : List ρ),
        ApertureList.addRows a (.apList b) = .ok (a ++ b)
          ∧ (a ++ b).length = a.length + b.length)
    ∧ (∀ (ρ : Type) (a : List ρ) (t : String),
        ApertureList.addRows a (.other t) = .error (.valueError t))
    ∧ ApertureList.addRows [1, 2, 3] (.apList ([4, 5] : List ℕ))
        = .ok [1, 2, 3, 4, 5] := by
  refine ⟨fun ρ a b => ⟨rfl, ?_⟩, fun ρ a t => rfl, rfl⟩
  simp

/-- C9: `add_effect` appends its argument to the effects list exactly when
it is an `Effect` instance; for any other value it is a silent no-op (the
container is returned unchanged and no exception is raised). -/
theorem C9_add_effect_appends_iff :
    (∀ (oe : OpticalElement) (e : Effect),
        add_effect oe (.eff e) = ⟨oe.effects ++ [e]⟩)
    ∧ ∀ (oe : OpticalElement) (t : String), add_effect oe (.other t) = oe := by
  exact ⟨fun _ _ => rfl, fun _ _ => rfl⟩

/-- C10: `OpticalElement.__add__` always evaluates to Python `None` (it has
no `return`), even when the operand is a valid `Effect` and is appended to
the receiver's effects, so `+` cannot be chained to recover the container. -/
theorem C10_addOp_returns_none :
    (∀ (oe : OpticalElement) (v : PyValue), (OpticalElement.addOp oe v).1 = none)
    ∧ ∀ (oe : OpticalElement) (e : Effect),
        (OpticalElement.addOp oe (.eff e)).2.effects = oe.effects ++ [e] := by
  exact ⟨fun _ _ => rfl, fun _ _ => rfl⟩

/-- C2: evaluation of `ApertureMask.mask` at states refuting the claim that
each property recomputes exactly when its own cache is empty and `x`, `y`
are present: with the header cached (`some 0`), the mask never computed and
both columns present, the access returns `none` and computes nothing; with
the header empty and the mask already cached (`some 5`), the access
recomputes (returning `some 7`) — the guard reads `self._header`, not
`self._mask`. -/
theorem C2_mask_guard_reads_header_cache :
    ApertureMask.mask (fun _ => some 7)
        (⟨some 0, none, ⟨["x", "y"], 0⟩⟩ : ApMaskState ℕ ℕ ℕ)
      = (none, ⟨some 0, none, ⟨["x", "y"], 0⟩⟩)
    ∧ ApertureMask.mask (fun _ => some 7)
        (⟨none, some 5, ⟨["x", "y"], 0⟩⟩ : ApMaskState ℕ ℕ ℕ)
      = (some 7, ⟨none, some 7, ⟨["x", "y"], 0⟩⟩) := by
  constructor <;> rfl

/-- A fresh `.header` read (empty cache, both columns present) computes
from the current table and caches the result. -/
theorem header_read_fresh {H M β : Type} (get_header : PyTable β → H)
    (s : ApMaskState H M β) (h0 : s._header = none)
    (hx : s.table.colnames.contains "x" = true)
    (hy : s.table.colnames.contains "y" = true) :
    ApertureMask.header get_header s
      = (some (get_header s.table), { s with _header := some (get_header s.table) }) := by
  have hc : (s._header.isNone && s.table.colnames.contains "x"
      && s.table.colnames.contains "y") = true := by
    rw [h0, hx, hy]
    rfl
  unfold ApertureMask.header
  rw [if_pos hc]

/-- A `.header` read with a cached header returns it and changes nothing. -/
theorem header_read_cached {H M β : Type} (get_header : PyTable β → H)
    (s : ApMaskState H M β) (h : H) (h0 : s._header = some h) :
    ApertureMask.header get_header s = (some h, s) := by
  have hc : ¬ ((s._header.isNone && s.table.colnames.contains "x"
      && s.table.colnames.contains "y") = true) := by
    rw [h0]
    simp only [Option.isNone_some, Bool.false_and]
    exact Bool.false_ne_true
  unfold ApertureMask.header
  rw [if_neg hc, h0]

/-- C8: reading `.header` computes once from the then-current vertex table
and caches; a second read — even after the table has been replaced by an
arbitrary other table — returns the identical cached value and changes
nothing (sticky cache, no invalidation). -/
theorem C8_header_sticky_cache {H M β : Type} (get_header : PyTable β → H)
    (s : ApMaskState H M β) (t2 : PyTable β)
    (h0 : s._header = none)
    (hx : s.table.colnames.contains "x" = true)
    (hy : s.table.colnames.contains "y" = true) :
    (ApertureMask.header get_header s).1 = some (get_header s.table)
    ∧ (ApertureMask.header get_header
        { (ApertureMask.header get_header s).2 with table := t2 }).1
      = some (get_header s.table)
    ∧ (ApertureMask.header get_header
        { (ApertureMask.header get_header s).2 with table := t2 }).2
      = { (ApertureMask.header get_header s).2 with table := t2 } := by
  have h1 := header_read_fresh get_header s h0 hx hy
  have h2 : ({ (ApertureMask.header (M := M) get_header s).2 with table := t2 })._header
      = some (get_header s.table) := by
    rw [h1]
  have h3 := header_read_cached get_header
    { (ApertureMask.header (M := M) get_header s).2 with table := t2 }
    (get_header s.table) h2
  exact ⟨by rw [h1], by rw [h3], by rw [h3]⟩

/-- Witness for C8 at a concrete aperture: table `⟨["x","y"], 5⟩`, header
computation reading the payload, mutated table `⟨["x","y"], 99⟩`. -/
theorem C8_header_sticky_cache_witness :
    ((⟨none, none, ⟨["x", "y"], 5⟩⟩ : ApMaskState ℕ ℕ ℕ)._header = none
      ∧ (["x", "y"].contains "x") = true ∧ (["x", "y"].contains "y") = true)
    ∧ ((ApertureMask.header (fun t => t.payload)
          (⟨none, none, ⟨["x", "y"], 5⟩⟩ : ApMaskState ℕ ℕ ℕ)).1 = some 5
      ∧ (ApertureMask.header (fun t => t.payload)
          { (ApertureMask.header (fun t => t.payload)
              (⟨none, none, ⟨["x", "y"], 5⟩⟩ : ApMaskState ℕ ℕ ℕ)).2 with
            table := ⟨["x", "y"], 99⟩ }).1 = some 5
      ∧ (ApertureMask.header (fun t => t.payload)
          { (ApertureMask.header (fun t => t.payload)
              (⟨none, none, ⟨["x", "y"], 5⟩⟩ : ApMaskState ℕ ℕ ℕ)).2 with
            table := ⟨["x", "y"], 99⟩ }).2
        = { (ApertureMask.header (fun t => t.payload)
              (⟨none, none, ⟨["x", "y"], 5⟩⟩ : ApMaskState ℕ ℕ ℕ)).2 with
            table := ⟨["x", "y"], 99⟩ }) :=
  ⟨⟨rfl, rfl, rfl⟩,
    C8_header_sticky_cache (fun t => t.payload)
      (⟨none, none, ⟨["x", "y"], 5⟩⟩ : ApMaskState ℕ ℕ ℕ)
      ⟨["x", "y"], 99⟩ rfl rfl rfl⟩
/-! ## Geometry helper lemmas -/

theorem cos_pi_add_eq (x : ℝ) : Real.cos (Real.pi + x) = -Real.cos x := by
  rw [Real.cos_add, Real.cos_pi, Real.sin_pi]; ring

theorem sin_pi_add_eq (x : ℝ) : Real.sin (Real.pi + x) = -Real.sin x := by
  rw [Real.sin_add, Real.cos_pi, Real.sin_pi]; ring

/-- Evaluation of the polygon constructor for `shape="rect"`, `angle=0`. -/
theorem make_rect_eval (l r t b : ℝ) :
    make_aperture_polygon l r t b 0 (.str "rect") 32 0
      = .ok (points_on_a_circle 4 (0.5 * (r + l)) (0.5 * (t + b))
          (0.5 * (r - l) * 1.41421356) (0.5 * (t - b) * 1.41421356) (0 + 45)) := by
  unfold make_aperture_polygon
  rw [show parsedShape (.str "rect") = .str "rect" from by decide]
  dsimp only
  rw [show nCornersLookup 32 (.str "rect") = some 4 from by decide]
  rw [show isRectLike (.str "rect") = true from by decide]
  dsimp only
  rw [if_neg (by decide : ¬ (4:ℤ) = 0), if_pos (rfl : (0:ℝ) = 0)]
  rfl

/-- Evaluation of the polygon constructor for `shape=4`, `angle=0`. -/
theorem make_shape4_eval (l r t b : ℝ) :
    make_aperture_polygon l r t b 0 (.int 4) 32 0
      = .ok (points_on_a_circle 4 (0.5 * (r + l)) (0.5 * (t + b))
          (0.5 * (r - l)) (0.5 * (t - b)) 0) := by
  unfold make_aperture_polygon
  rw [show parsedShape (.int 4) = .int 4 from rfl]
  dsimp only
  rw [show nCornersLookup 32 (.int 4) = some 4 from rfl]
  rw [show isRectLike (.int 4) = false from rfl]
  dsimp only
  rw [if_neg (by decide : ¬ (4:ℤ) = 0), if_pos (rfl : (0:ℝ) = 0)]
  rfl

/-- Evaluation of the polygon constructor for `shape="round"` with the
default 32 round corners, `angle=0`. -/
theorem make_round_eval (l r t b : ℝ) :
    make_aperture_polygon l r t b 0 (.str "round") 32 0
      = .ok (points_on_a_circle 32 (0.5 * (r + l)) (0.5 * (t + b))
          (0.5 * (r - l)) (0.5 * (t - b)) 0) := by
  unfold make_aperture_polygon
  rw [show parsedShape (.str "round") = .str "round" from by decide]
  dsimp only
  rw [show nCornersLookup 32 (.str "round") = some 32 from by decide]
  rw [show isRectLike (.str "round") = false from by decide]
  dsimp only
  rw [if_neg (by decide : ¬ (32:ℤ) = 0), if_pos (rfl : (0:ℝ) = 0)]
  rfl

/-- The four points on an ellipse at offset 45°. -/
theorem points4_offset45 (x0 y0 dx dy : ℝ) :
    points_on_a_circle 4 x0 y0 dx dy (0 + 45)
      = ([x0 + dx * (Real.sqrt 2 / 2), x0 - dx * (Real.sqrt 2 / 2),
          x0 - dx * (Real.sqrt 2 / 2), x0 + dx * (Real.sqrt 2 / 2)],
         [y0 + dy * (Real.sqrt 2 / 2), y0 + dy * (Real.sqrt 2 / 2),
          y0 - dy * (Real.sqrt 2 / 2), y0 - dy * (Real.sqrt 2 / 2)]) := by
  unfold points_on_a_circle
  rw [show Int.toNat 4 = 4 from rfl, show List.range 4 = [0, 1, 2, 3] from by decide]
  dsimp only [List.map_cons, List.map_nil]
  have ha0 : (((0:ℕ):ℝ) * (360 / ((4:ℤ):ℝ)) + (0 + 45)) * deg2rad = Real.pi / 4 := by
    push_cast; unfold deg2rad; ring
  have ha1 : (((1:ℕ):ℝ) * (360 / ((4:ℤ):ℝ)) + (0 + 45)) * deg2rad
      = Real.pi - Real.pi / 4 := by
    push_cast; unfold deg2rad; ring
  have ha2 : (((2:ℕ):ℝ) * (360 / ((4:ℤ):ℝ)) + (0 + 45)) * deg2rad
      = Real.pi + Real.pi / 4 := by
    push_cast; unfold deg2rad; ring
  have ha3 : (((3:ℕ):ℝ) * (360 / ((4:ℤ):ℝ)) + (0 + 45)) * deg2rad
      = 2 * Real.pi - Real.pi / 4 := by
    push_cast; unfold deg2rad; ring
  rw [ha0, ha1, ha2, ha3, Real.cos_pi_sub, Real.sin_pi_sub, cos_pi_add_eq,
    sin_pi_add_eq, Real.cos_two_pi_sub, Real.sin_two_pi_sub,
    Real.cos_pi_div_four, Real.sin_pi_div_four]
  refine congrArg₂ Prod.mk ?_ ?_ <;> simp only [List.cons.injEq, and_true] <;>
    and_intros <;> (first | rfl | ring_nf)

/-- The four points on an ellipse at offset 0 (edge midpoints). -/
theorem points4_offset0 (x0 y0 dx dy : ℝ) :
    points_on_a_circle 4 x0 y0 dx dy 0
      = ([x0 + dx, x0, x0 - dx, x0], [y0, y0 + dy, y0, y0 - dy]) := by
  unfold points_on_a_circle
  rw [show Int.toNat 4 = 4 from rfl, show List.range 4 = [0, 1, 2, 3] from by decide]
  dsimp only [List.map_cons, List.map_nil]
  have ha0 : (((0:ℕ):ℝ) * (360 / ((4:ℤ):ℝ)) + 0) * deg2rad = 0 := by
    push_cast; unfold deg2rad; ring
  have ha1 : (((1:ℕ):ℝ) * (360 / ((4:ℤ):ℝ)) + 0) * deg2rad = Real.pi / 2 := by
    push_cast; unfold deg2rad; ring
  have ha2 : (((2:ℕ):ℝ) * (360 / ((4:ℤ):ℝ)) + 0) * deg2rad = Real.pi := by
    push_cast; unfold deg2rad; ring
  have ha3 : (((3:ℕ):ℝ) * (360 / ((4:ℤ):ℝ)) + 0) * deg2rad
      = Real.pi + Real.pi / 2 := by
    push_cast; unfold deg2rad; ring
  rw [ha0, ha1, ha2, ha3, cos_pi_add_eq, sin_pi_add_eq, Real.cos_zero,
    Real.sin_zero, Real.cos_pi_div_two, Real.sin_pi_div_two, Real.cos_pi,
    Real.sin_pi]
  refine congrArg₂ Prod.mk ?_ ?_ <;> simp only [List.cons.injEq, and_true] <;>
    and_intros <;> (first | rfl | ring_nf)
/-- C3 (counterexample): for the bounding box `(-2·dx-style) (-1, 1, 1, -1)`,
the `shape="rect"` polygon's first vertex has both coordinates equal to
`1.41421356 · (√2/2)`, which differs from `1` and from `-1`, so the vertex
does not coincide with any corner `(±1, ±1)` of the bounding box: the
claim's "the 4 points touch the box corners" is false exactly (the source
scales by the literal `1.41421356`, not by `√2`). -/
theorem C3_counterexample :
    make_aperture_polygon (-1) 1 1 (-1) 0 (.str "rect") 32 0
      = .ok ([1.41421356 * (Real.sqrt 2 / 2), -(1.41421356 * (Real.sqrt 2 / 2)),
              -(1.41421356 * (Real.sqrt 2 / 2)), 1.41421356 * (Real.sqrt 2 / 2)],
             [1.41421356 * (Real.sqrt 2 / 2), 1.41421356 * (Real.sqrt 2 / 2),
              -(1.41421356 * (Real.sqrt 2 / 2)), -(1.41421356 * (Real.sqrt 2 / 2))])
    ∧ 1.41421356 * (Real.sqrt 2 / 2) ≠ (1 : ℝ)
    ∧ 1.41421356 * (Real.sqrt 2 / 2) ≠ (-1 : ℝ) := by
  have hsq : Real.sqrt 2 ^ 2 = 2 := Real.sq_sqrt (by norm_num)
  have hpos : (0:ℝ) < 1.41421356 * (Real.sqrt 2 / 2) := by
    have h2 : (0:ℝ) < Real.sqrt 2 := Real.sqrt_pos.mpr (by norm_num)
    positivity
  refine ⟨?_, ?_, ?_⟩
  · rw [make_rect_eval, points4_offset45]
    refine congrArg Except.ok (congrArg₂ Prod.mk ?_ ?_) <;>
      simp only [List.cons.injEq, and_true] <;> and_intros <;> ring_nf
  · intro h
    have h4 : (1.41421356:ℝ) ^ 2 * 2 = 4 := by nlinarith [hsq, Real.sqrt_nonneg 2]
    norm_num at h4
  · intro h
    rw [h] at hpos
    norm_num at hpos
/-- C3 (amended): for every bounding box, `shape="rect"` scales the
half-extents by the literal `1.41421356` (the source's 8-digit
approximation of `√2`) and adds `45°` to the offset, so its 4 points are
the box corners scaled radially by `κ = 1.41421356·√2/2` with
`|κ - 1| ≤ 7·10⁻⁹`: the points touch the corners, and the mask fills the
bounding box, only up to that relative error and rasterization rounding.
`shape=4` places 4 unscaled points at the edge midpoints (a diamond). The
rect polygon's double area is `4·dx·dy·1.41421356²` with `1.41421356² =
1.9999999932878736 ≈ 2`, i.e. approximately the full box area and twice
the diamond's double area `4·dx·dy` (exactly half the box). The two
shapes produce different vertex sets: at the box `(-1, 1, 1, -1)`,
`(1, 0)` is a `shape=4` vertex but not a `"rect"` vertex. -/
theorem C3_rect_vs_shape4_amended :
    (∀ l r t b : ℝ,
      make_aperture_polygon l r t b 0 (.str "rect") 32 0
        = .ok ([0.5 * (r + l) + 0.5 * (r - l) * 1.41421356 * (Real.sqrt 2 / 2),
                0.5 * (r + l) - 0.5 * (r - l) * 1.41421356 * (Real.sqrt 2 / 2),
                0.5 * (r + l) - 0.5 * (r - l) * 1.41421356 * (Real.sqrt 2 / 2),
                0.5 * (r + l) + 0.5 * (r - l) * 1.41421356 * (Real.sqrt 2 / 2)],
               [0.5 * (t + b) + 0.5 * (t - b) * 1.41421356 * (Real.sqrt 2 / 2),
                0.5 * (t + b) + 0.5 * (t - b) * 1.41421356 * (Real.sqrt 2 / 2),
                0.5 * (t + b) - 0.5 * (t - b) * 1.41421356 * (Real.sqrt 2 / 2),
                0.5 * (t + b) - 0.5 * (t - b) * 1.41421356 * (Real.sqrt 2 / 2)])
      ∧ make_aperture_polygon l r t b 0 (.int 4) 32 0
        = .ok ([0.5 * (r + l) + 0.5 * (r - l), 0.5 * (r + l),
                0.5 * (r + l) - 0.5 * (r - l), 0.5 * (r + l)],
               [0.5 * (t + b), 0.5 * (t + b) + 0.5 * (t - b),
                0.5 * (t + b), 0.5 * (t + b) - 0.5 * (t - b)])
      ∧ polygonDoubleArea
            [0.5 * (r + l) + 0.5 * (r - l) * 1.41421356 * (Real.sqrt 2 / 2),
             0.5 * (r + l) - 0.5 * (r - l) * 1.41421356 * (Real.sqrt 2 / 2),
             0.5 * (r + l) - 0.5 * (r - l) * 1.41421356 * (Real.sqrt 2 / 2),
             0.5 * (r + l) + 0.5 * (r - l) * 1.41421356 * (Real.sqrt 2 / 2)]
            [0.5 * (t + b) + 0.5 * (t - b) * 1.41421356 * (Real.sqrt 2 / 2),
             0.5 * (t + b) + 0.5 * (t - b) * 1.41421356 * (Real.sqrt 2 / 2),
             0.5 * (t + b) - 0.5 * (t - b) * 1.41421356 * (Real.sqrt 2 / 2),
             0.5 * (t + b) - 0.5 * (t - b) * 1.41421356 * (Real.sqrt 2 / 2)]
          = 4 * (0.5 * (r - l)) * (0.5 * (t - b)) * 1.41421356 ^ 2
      ∧ polygonDoubleArea
            [0.5 * (r + l) + 0.5 * (r - l), 0.5 * (r + l),
             0.5 * (r + l) - 0.5 * (r - l), 0.5 * (r + l)]
            [0.5 * (t + b), 0.5 * (t + b) + 0.5 * (t - b),
             0.5 * (t + b), 0.5 * (t + b) - 0.5 * (t - b)]
          = 4 * (0.5 * (r - l)) * (0.5 * (t - b)))
    ∧ |1.41421356 * (Real.sqrt 2 / 2) - 1| ≤ 7 / 10 ^ 9
    ∧ (1.41421356 : ℝ) ^ 2 = 1.9999999932878736
    ∧ make_aperture_polygon (-1) 1 1 (-1) 0 (.int 4) 32 0
        = .ok ([1, 0, -1, 0], [0, 1, 0, -1])
    ∧ ((1 : ℝ), (0 : ℝ)) ∉
        (([1.41421356 * (Real.sqrt 2 / 2), -(1.41421356 * (Real.sqrt 2 / 2)),
           -(1.41421356 * (Real.sqrt 2 / 2)), 1.41421356 * (Real.sqrt 2 / 2)] : List ℝ).zip
         ([1.41421356 * (Real.sqrt 2 / 2), 1.41421356 * (Real.sqrt 2 / 2),
           -(1.41421356 * (Real.sqrt 2 / 2)), -(1.41421356 * (Real.sqrt 2 / 2))] : List ℝ)) := by
  have hsq : Real.sqrt 2 ^ 2 = 2 := Real.sq_sqrt (by norm_num)
  have hpos : (0:ℝ) < 1.41421356 * (Real.sqrt 2 / 2) := by
    have h2 : (0:ℝ) < Real.sqrt 2 := Real.sqrt_pos.mpr (by norm_num)
    positivity
  refine ⟨fun l r t b => ⟨?_, ?_, ?_, ?_⟩, ?_, by norm_num, ?_, ?_⟩
  · rw [make_rect_eval, points4_offset45]
  · rw [make_shape4_eval, points4_offset0]
  · simp only [polygonDoubleArea, List.zip_cons_cons, List.zip_nil_right,
      List.drop_succ_cons, List.drop_zero, List.cons_append, List.nil_append,
      List.map_cons, List.map_nil, List.sum_cons, List.sum_nil]
    linear_combination (2 * (0.5 * (r - l)) * (0.5 * (t - b)) * (1.41421356:ℝ) ^ 2) * hsq
  · simp only [polygonDoubleArea, List.zip_cons_cons, List.zip_nil_right,
      List.drop_succ_cons, List.drop_zero, List.cons_append, List.nil_append,
      List.map_cons, List.map_nil, List.sum_cons, List.sum_nil]
    ring
  · rw [abs_le]
    constructor
    · nlinarith [hsq, Real.sqrt_nonneg 2]
    · nlinarith [hsq, Real.sqrt_nonneg 2, sq_nonneg (2 - 1.41421356 * Real.sqrt 2)]
  · rw [make_shape4_eval, points4_offset0]
    refine congrArg Except.ok (congrArg₂ Prod.mk ?_ ?_) <;>
      simp only [List.cons.injEq, and_true] <;> and_intros <;> norm_num
  · intro hmem
    simp only [List.zip_cons_cons, List.zip_nil_right, List.mem_cons,
      List.not_mem_nil, or_false, Prod.mk.injEq] at hmem
    rcases hmem with ⟨h1, h2⟩ | ⟨h1, h2⟩ | ⟨h1, h2⟩ | ⟨h1, h2⟩ <;> linarith [hpos]
/-- C5 (counterexample): the polygon constructor, asked for a corner count
of `1` (shape token `"1"`, box `(0, 1, 1, 0)`, angle 0), does not fail: it
silently succeeds and returns the single-point geometry `([1], [0.5])`. -/
theorem C5_counterexample :
    make_aperture_polygon 0 1 1 0 0 (.str "1") 32 0 = .ok ([1], [0.5]) := by
  unfold make_aperture_polygon
  rw [show parsedShape (.str "1") = .int 1 from by decide]
  dsimp only
  rw [show nCornersLookup 32 (.int 1) = some 1 from rfl]
  rw [show isRectLike (.int 1) = false from rfl]
  dsimp only
  rw [if_neg (by decide : ¬ (1:ℤ) = 0), if_pos (rfl : (0:ℝ) = 0)]
  unfold points_on_a_circle
  rw [show Int.toNat 1 = 1 from rfl, show List.range 1 = [0] from by decide]
  dsimp only [List.map_cons, List.map_nil]
  simp only [if_neg Bool.false_ne_true]
  have ha : (((0:ℕ):ℝ) * (360 / ((1:ℤ):ℝ)) + 0) * deg2rad = 0 := by
    push_cast; unfold deg2rad; ring
  rw [ha, Real.cos_zero, Real.sin_zero]
  norm_num

/-- C5 (amended): a corner count resolving to `0` (token `"0"` or integer
`0`) makes the construction fail, but with a `ZeroDivisionError` from
`360 / n`, not a configuration error; a corner count resolving to `1`
(token `"1"` or integer `1`) does not fail at all: the construction
silently succeeds and returns single-point geometry, for every bounding
box, angle and offset. -/
theorem C5_degenerate_counts (l r t b angle offset : ℝ) :
    make_aperture_polygon l r t b angle (.str "0") 32 offset = .error .zeroDivision
    ∧ make_aperture_polygon l r t b angle (.int 0) 32 offset = .error .zeroDivision
    ∧ (∃ xs ys, make_aperture_polygon l r t b angle (.str "1") 32 offset = .ok (xs, ys)
        ∧ xs.length = 1 ∧ ys.length = 1)
    ∧ (∃ xs ys, make_aperture_polygon l r t b angle (.int 1) 32 offset = .ok (xs, ys)
        ∧ xs.length = 1 ∧ ys.length = 1) := by
  refine ⟨?_, ?_, ?_, ?_⟩
  · unfold make_aperture_polygon
    rw [show parsedShape (.str "0") = .int 0 from by decide]
    dsimp only
    rw [show nCornersLookup 32 (.int 0) = some 0 from rfl]
    rw [show isRectLike (.int 0) = false from rfl]
    dsimp only
    rw [if_pos (rfl : (0:ℤ) = 0)]
  · unfold make_aperture_polygon
    rw [show parsedShape (.int 0) = .int 0 from rfl]
    dsimp only
    rw [show nCornersLookup 32 (.int 0) = some 0 from rfl]
    rw [show isRectLike (.int 0) = false from rfl]
    dsimp only
    rw [if_pos (rfl : (0:ℤ) = 0)]
  · unfold make_aperture_polygon
    rw [show parsedShape (.str "1") = .int 1 from by decide]
    dsimp only
    rw [show nCornersLookup 32 (.int 1) = some 1 from rfl]
    rw [show isRectLike (.int 1) = false from rfl]
    dsimp only
    rw [if_neg (by decide : ¬ (1:ℤ) = 0)]
    by_cases ha : angle = 0
    · rw [if_pos ha]
      exact ⟨_, _, rfl, by simp [points_on_a_circle],
        by simp [points_on_a_circle]⟩
    · rw [if_neg ha]
      exact ⟨_, _, rfl, by simp [rotate, points_on_a_circle],
        by simp [rotate, points_on_a_circle]⟩
  · unfold make_aperture_polygon
    rw [show parsedShape (.int 1) = .int 1 from rfl]
    dsimp only
    rw [show nCornersLookup 32 (.int 1) = some 1 from rfl]
    rw [show isRectLike (.int 1) = false from rfl]
    dsimp only
    rw [if_neg (by decide : ¬ (1:ℤ) = 0)]
    by_cases ha : angle = 0
    · rw [if_pos ha]
      exact ⟨_, _, rfl, by simp [points_on_a_circle],
        by simp [points_on_a_circle]⟩
    · rw [if_neg ha]
      exact ⟨_, _, rfl, by simp [rotate, points_on_a_circle],
        by simp [rotate, points_on_a_circle]⟩

/-- C6: a shape token that is neither one of the named shapes (`round`,
`rect`, `hex`, `oct`) nor parseable as an integer corner count makes the
polygon constructor fail with a `KeyError` naming the offending token; a
failed integer parse itself is swallowed (non-fatal) and merely falls
through to this lookup — the named shape `"hex"`, whose integer parse also
fails, still succeeds. -/
theorem C6_unknown_shape_keyerror :
    (∀ (l r t b angle offset : ℝ) (n_round : ℤ) (s : String),
        parseDecimal s = none →
        s ≠ "rect" → s ≠ "hex" → s ≠ "oct" → s ≠ "round" →
        make_aperture_polygon l r t b angle (.str s) n_round offset
          = .error (.keyError s))
    ∧ ∃ xs ys, make_aperture_polygon 0 1 1 0 0 (.str "hex") 32 0 = .ok (xs, ys) := by
  constructor
  · intro l r t b angle offset n_round s hparse h1 h2 h3 h4
    unfold make_aperture_polygon
    rw [show parsedShape (.str s) = .str s from by simp [parsedShape, hparse]]
    dsimp only
    rw [show nCornersLookup n_round (.str s) = none from by
      simp [nCornersLookup, h1, h2, h3, h4]]
    rfl
  · unfold make_aperture_polygon
    rw [show parsedShape (.str "hex") = .str "hex" from by decide]
    dsimp only
    rw [show nCornersLookup 32 (.str "hex") = some 6 from by decide]
    rw [show isRectLike (.str "hex") = false from by decide]
    dsimp only
    rw [if_neg (by decide : ¬ (6:ℤ) = 0), if_pos (rfl : (0:ℝ) = 0)]
    exact ⟨_, _, rfl⟩

/-- Witness for C6 at the concrete token `"blah"`. -/
theorem C6_unknown_shape_keyerror_witness :
    (parseDecimal "blah" = none ∧ "blah" ≠ "rect" ∧ "blah" ≠ "hex"
      ∧ "blah" ≠ "oct" ∧ "blah" ≠ "round")
    ∧ make_aperture_polygon 0 1 1 0 0 (.str "blah") 32 0
        = .error (.keyError "blah") :=
  ⟨⟨by decide, by decide, by decide, by decide, by decide⟩,
    C6_unknown_shape_keyerror.1 0 1 1 0 0 0 32 "blah"
      (by decide) (by decide) (by decide) (by decide) (by decide)⟩
/-! ## Rasterizer helper lemmas -/

theorem foldl_max_eq {b : ℝ} :
    ∀ (l : List ℝ) (a : ℝ), a ≤ b → (∀ x ∈ l, x ≤ b) → (b = a ∨ b ∈ l) →
      l.foldl max a = b := by
  intro l
  induction l with
  | nil =>
      intro a _ _ hmem
      rcases hmem with h | h
      · exact h.symm
      · exact absurd h (List.not_mem_nil b)
  | cons x xs ih =>
      intro a ha hall hmem
      have hx : x ≤ b := hall x (List.mem_cons_self x xs)
      refine ih (max a x) (max_le ha hx)
        (fun z hz => hall z (List.mem_cons_of_mem x hz)) ?_
      rcases hmem with h | h
      · subst h
        exact Or.inl (max_eq_left hx).symm
      · rcases List.mem_cons.mp h with h | h
        · subst h
          exact Or.inl (max_eq_right ha).symm
        · exact Or.inr h

theorem foldl_min_eq {b : ℝ} :
    ∀ (l : List ℝ) (a : ℝ), b ≤ a → (∀ x ∈ l, b ≤ x) → (b = a ∨ b ∈ l) →
      l.foldl min a = b := by
  intro l
  induction l with
  | nil =>
      intro a _ _ hmem
      rcases hmem with h | h
      · exact h.symm
      · exact absurd h (List.not_mem_nil b)
  | cons x xs ih =>
      intro a ha hall hmem
      have hx : b ≤ x := hall x (List.mem_cons_self x xs)
      refine ih (min a x) (le_min ha hx)
        (fun z hz => hall z (List.mem_cons_of_mem x hz)) ?_
      rcases hmem with h | h
      · subst h
        exact Or.inl (min_eq_left hx).symm
      · rcases List.mem_cons.mp h with h | h
        · subst h
          exact Or.inl (min_eq_right ha).symm
        · exact Or.inr h

/-- `np.max` of a list equals any member bounding all elements above. -/
theorem npmax_eq (l : List ℝ) (b : ℝ) (hmem : b ∈ l) (hle : ∀ a ∈ l, a ≤ b) :
    npmax l = b := by
  cases l with
  | nil => exact absurd hmem (List.not_mem_nil b)
  | cons x xs =>
      exact foldl_max_eq xs x (hle x (List.mem_cons_self x xs))
        (fun z hz => hle z (List.mem_cons_of_mem x hz)) (List.mem_cons.mp hmem)

/-- `np.min` of a list equals any member bounding all elements below. -/
theorem npmin_eq (l : List ℝ) (b : ℝ) (hmem : b ∈ l) (hle : ∀ a ∈ l, b ≤ a) :
    npmin l = b := by
  cases l with
  | nil => exact absurd hmem (List.not_mem_nil b)
  | cons x xs =>
      exact foldl_min_eq xs x (hle x (List.mem_cons_self x xs))
        (fun z hz => hle z (List.mem_cons_of_mem x hz)) (List.mem_cons.mp hmem)

theorem linspace_length (a b : ℝ) : ∀ num : ℕ, (linspace a b num).length = num
  | 0 => rfl
  | 1 => rfl
  | (n + 2) => by simp [linspace]

theorem length_flatMap_const {α β : Type} (f : α → List β) (k : ℕ) :
    ∀ l : List α, (∀ a ∈ l, (f a).length = k) → (l.flatMap f).length = l.length * k := by
  intro l
  induction l with
  | nil => intro _; simp
  | cons x xs ih =>
      intro h
      simp only [List.flatMap_cons, List.length_append, List.length_cons]
      rw [h x (List.mem_cons_self x xs),
        ih (fun a ha => h a (List.mem_cons_of_mem x ha)), Nat.succ_mul]
      omega

theorem reshape2_length {γ : Type} (n1 : ℕ) :
    ∀ (n2 : ℕ) (flat : List γ), (reshape2 n2 n1 flat).length = n2
  | 0, _ => rfl
  | n2 + 1, flat => by simp [reshape2, reshape2_length n1 n2]

theorem reshape2_row_length {γ : Type} (n1 : ℕ) :
    ∀ (n2 : ℕ) (flat : List γ), flat.length = n2 * n1 →
      ∀ row ∈ reshape2 n2 n1 flat, row.length = n1 := by
  intro n2
  induction n2 with
  | zero => intro flat _ row hrow; simp [reshape2] at hrow
  | succ n ih =>
      intro flat h row hrow
      simp only [reshape2, List.mem_cons] at hrow
      rcases hrow with rfl | hrow
      · rw [List.length_take, h, Nat.succ_mul]
        exact min_eq_left (Nat.le_add_left n1 (n * n1))
      · exact ih (flat.drop n1)
          (by rw [List.length_drop, h, Nat.succ_mul]; omega) row hrow

theorem reshape2_flatten {γ : Type} (n1 : ℕ) :
    ∀ (n2 : ℕ) (flat : List γ), flat.length = n2 * n1 →
      (reshape2 n2 n1 flat).flatten = flat := by
  intro n2
  induction n2 with
  | zero =>
      intro flat h
      have hnil : flat = [] := List.eq_nil_of_length_eq_zero (by simpa using h)
      simp [reshape2, hnil]
  | succ n ih =>
      intro flat h
      simp only [reshape2, List.flatten_cons]
      rw [ih (flat.drop n1) (by rw [List.length_drop, h, Nat.succ_mul]; omega)]
      exact List.take_append_drop n1 flat
/-- The `shape="round"` example row: 32 points on the ellipse of semi-axes
`(2, 1)` centred at the origin. -/
theorem points32_ellipse :
    points_on_a_circle 32 (0.5 * (2 + -2)) (0.5 * (1 + -1))
        (0.5 * (2 - -2)) (0.5 * (1 - -1)) 0
      = ((List.range 32).map (fun (k : ℕ) => 2 * Real.cos ((k : ℝ) * 11.25 * deg2rad)),
         (List.range 32).map (fun (k : ℕ) => 1 * Real.sin ((k : ℝ) * 11.25 * deg2rad))) := by
  unfold points_on_a_circle
  dsimp only
  rw [show Int.toNat 32 = 32 from rfl, List.map_map, List.map_map]
  refine congrArg₂ Prod.mk ?_ ?_ <;>
    refine List.map_congr_left (fun k hk => ?_) <;>
    · simp only [Function.comp_apply]
      have hang : ((k : ℝ) * (360 / ((32 : ℤ) : ℝ)) + 0) = (k : ℝ) * 11.25 := by
        push_cast
        norm_num
      rw [hang]
      ring
/-- Maximum x (in degrees) of the example ellipse: attained at `k = 0`. -/
theorem npmax_xd :
    npmax (((List.range 32).map
        (fun (k : ℕ) => 2 * Real.cos ((k : ℝ) * 11.25 * deg2rad))).map
        (fun v => v / 3600)) = 2 / 3600 := by
  rw [List.map_map]
  refine npmax_eq _ _ ?_ ?_
  · refine List.mem_map.mpr ⟨0, List.mem_range.mpr (by norm_num), ?_⟩
    simp only [Function.comp_apply]
    rw [show ((0 : ℕ) : ℝ) * 11.25 * deg2rad = 0 by push_cast; ring, Real.cos_zero]
    norm_num
  · intro a ha
    obtain ⟨k, _, rfl⟩ := List.mem_map.mp ha
    simp only [Function.comp_apply]
    have h := Real.cos_le_one ((k : ℝ) * 11.25 * deg2rad)
    linarith

/-- Minimum x (in degrees) of the example ellipse: attained at `k = 16`
(180°). -/
theorem npmin_xd :
    npmin (((List.range 32).map
        (fun (k : ℕ) => 2 * Real.cos ((k : ℝ) * 11.25 * deg2rad))).map
        (fun v => v / 3600)) = -2 / 3600 := by
  rw [List.map_map]
  refine npmin_eq _ _ ?_ ?_
  · refine List.mem_map.mpr ⟨16, List.mem_range.mpr (by norm_num), ?_⟩
    simp only [Function.comp_apply]
    rw [show ((16 : ℕ) : ℝ) * 11.25 * deg2rad = Real.pi by
      push_cast; unfold deg2rad; ring, Real.cos_pi]
    norm_num
  · intro a ha
    obtain ⟨k, _, rfl⟩ := List.mem_map.mp ha
    simp only [Function.comp_apply]
    have h := Real.neg_one_le_cos ((k : ℝ) * 11.25 * deg2rad)
    linarith

/-- Maximum y (in degrees) of the example ellipse: attained at `k = 8`
(90°). -/
theorem npmax_yd :
    npmax (((List.range 32).map
        (fun (k : ℕ) => 1 * Real.sin ((k : ℝ) * 11.25 * deg2rad))).map
        (fun v => v / 3600)) = 1 / 3600 := by
  rw [List.map_map]
  refine npmax_eq _ _ ?_ ?_
  · refine List.mem_map.mpr ⟨8, List.mem_range.mpr (by norm_num), ?_⟩
    simp only [Function.comp_apply]
    rw [show ((8 : ℕ) : ℝ) * 11.25 * deg2rad = Real.pi / 2 by
      push_cast; unfold deg2rad; ring, Real.sin_pi_div_two]
    norm_num
  · intro a ha
    obtain ⟨k, _, rfl⟩ := List.mem_map.mp ha
    simp only [Function.comp_apply]
    have h := Real.sin_le_one ((k : ℝ) * 11.25 * deg2rad)
    linarith

/-- Minimum y (in degrees) of the example ellipse: attained at `k = 24`
(270°). -/
theorem npmin_yd :
    npmin (((List.range 32).map
        (fun (k : ℕ) => 1 * Real.sin ((k : ℝ) * 11.25 * deg2rad))).map
        (fun v => v / 3600)) = -1 / 3600 := by
  rw [List.map_map]
  refine npmin_eq _ _ ?_ ?_
  · refine List.mem_map.mpr ⟨24, List.mem_range.mpr (by norm_num), ?_⟩
    simp only [Function.comp_apply]
    rw [show ((24 : ℕ) : ℝ) * 11.25 * deg2rad = Real.pi + Real.pi / 2 by
      push_cast; unfold deg2rad; ring, sin_pi_add_eq, Real.sin_pi_div_two]
    norm_num
  · intro a ha
    obtain ⟨k, _, rfl⟩ := List.mem_map.mp ha
    simp only [Function.comp_apply]
    have h := Real.neg_one_le_sin ((k : ℝ) * 11.25 * deg2rad)
    linarith
/-- C4: for every vertex set and pixel scale, `mask_from_coords` produces a
grid of `naxis2 = ceil(Δy/s)` rows, each of length `naxis1 = ceil(Δx/s)`,
whose entries are exactly the point-in-polygon memberships (the external
`Path(corners).contains_points` with zero inclusion radius, abstracted as
`contains` applied to the closed vertex list `zip x y`) of the grid points
of the `linspace` ranges; and for the example row `(id=1, left=-2, right=2,
top=1, bottom=-1, angle=0, shape="round")` the polygon is 32 points on the
ellipse of semi-axes `(2, 1)` and the rasterized mask (at pixel scale
`0.1` arcsec, i.e. `0.1/3600` degrees over the arcsec→degree-converted
vertices) has shape `(20, 40)`. -/
theorem C4_mask_from_coords_spec :
    (∀ (contains : List (ℝ × ℝ) → ℝ × ℝ → Bool) (x y : List ℝ) (s : ℝ),
      (mask_from_coords contains x y s).length
          = (Int.ceil ((npmax y - npmin y) / s)).toNat
      ∧ (∀ row ∈ mask_from_coords contains x y s,
          row.length = (Int.ceil ((npmax x - npmin x) / s)).toNat)
      ∧ (mask_from_coords contains x y s).flatten
          = (linspace (npmin x) (npmax x)
              (Int.ceil ((npmax x - npmin x) / s)).toNat).flatMap
              (fun xi => (linspace (npmin y) (npmax y)
                  (Int.ceil ((npmax y - npmin y) / s)).toNat).map
                (fun yi => contains (x.zip y) (xi, yi))))
    ∧ make_aperture_polygon (-2) 2 1 (-1) 0 (.str "round") 32 0
        = .ok ((List.range 32).map
            (fun (k : ℕ) => 2 * Real.cos ((k : ℝ) * 11.25 * deg2rad)),
          (List.range 32).map
            (fun (k : ℕ) => 1 * Real.sin ((k : ℝ) * 11.25 * deg2rad)))
    ∧ ∀ (contains : List (ℝ × ℝ) → ℝ × ℝ → Bool),
        (mask_from_coords contains
            (((List.range 32).map
              (fun (k : ℕ) => 2 * Real.cos ((k : ℝ) * 11.25 * deg2rad))).map
              (fun v => v / 3600))
            (((List.range 32).map
              (fun (k : ℕ) => 1 * Real.sin ((k : ℝ) * 11.25 * deg2rad))).map
              (fun v => v / 3600))
            (0.1 / 3600)).length = 20
        ∧ ∀ row ∈ mask_from_coords contains
            (((List.range 32).map
              (fun (k : ℕ) => 2 * Real.cos ((k : ℝ) * 11.25 * deg2rad))).map
              (fun v => v / 3600))
            (((List.range 32).map
              (fun (k : ℕ) => 1 * Real.sin ((k : ℝ) * 11.25 * deg2rad))).map
              (fun v => v / 3600))
            (0.1 / 3600),
            row.length = 40 := by
  have hmaskgen : ∀ (contains : List (ℝ × ℝ) → ℝ × ℝ → Bool) (x y : List ℝ) (s : ℝ),
      (mask_from_coords contains x y s).length
          = (Int.ceil ((npmax y - npmin y) / s)).toNat
      ∧ (∀ row ∈ mask_from_coords contains x y s,
          row.length = (Int.ceil ((npmax x - npmin x) / s)).toNat)
      ∧ (mask_from_coords contains x y s).flatten
          = (linspace (npmin x) (npmax x)
              (Int.ceil ((npmax x - npmin x) / s)).toNat).flatMap
              (fun xi => (linspace (npmin y) (npmax y)
                  (Int.ceil ((npmax y - npmin y) / s)).toNat).map
                (fun yi => contains (x.zip y) (xi, yi))) := by
    intro contains x y s
    unfold mask_from_coords
    dsimp only
    have hlen : (((linspace (npmin x) (npmax x)
        (Int.ceil ((npmax x - npmin x) / s)).toNat).flatMap
        (fun xi => (linspace (npmin y) (npmax y)
            (Int.ceil ((npmax y - npmin y) / s)).toNat).map
          (fun yi => (xi, yi)))).map (contains (x.zip y))).length
        = (Int.ceil ((npmax y - npmin y) / s)).toNat
          * (Int.ceil ((npmax x - npmin x) / s)).toNat := by
      rw [List.length_map,
        length_flatMap_const _ ((Int.ceil ((npmax y - npmin y) / s)).toNat) _
          (fun a _ => by rw [List.length_map, linspace_length]),
        linspace_length, Nat.mul_comm]
    refine ⟨reshape2_length _ _ _, ?_, ?_⟩
    · intro row hrow
      exact reshape2_row_length _ _ _ hlen row hrow
    · rw [reshape2_flatten _ _ _ hlen, List.map_flatMap]
      simp only [List.map_map]
      rfl
  refine ⟨hmaskgen, ?_, ?_⟩
  · rw [make_round_eval]
    exact congrArg Except.ok points32_ellipse
  · intro contains
    have h1 := (hmaskgen contains
      (((List.range 32).map
        (fun (k : ℕ) => 2 * Real.cos ((k : ℝ) * 11.25 * deg2rad))).map
        (fun v => v / 3600))
      (((List.range 32).map
        (fun (k : ℕ) => 1 * Real.sin ((k : ℝ) * 11.25 * deg2rad))).map
        (fun v => v / 3600))
      (0.1 / 3600)).1
    have h2 := (hmaskgen contains
      (((List.range 32).map
        (fun (k : ℕ) => 2 * Real.cos ((k : ℝ) * 11.25 * deg2rad))).map
        (fun v => v / 3600))
      (((List.range 32).map
        (fun (k : ℕ) => 1 * Real.sin ((k : ℝ) * 11.25 * deg2rad))).map
        (fun v => v / 3600))
      (0.1 / 3600)).2.1
    rw [npmax_yd, npmin_yd] at h1
    rw [npmax_xd, npmin_xd] at h2
    rw [show ((1:ℝ) / 3600 - -1 / 3600) / (0.1 / 3600) = ((20:ℤ):ℝ) by norm_num,
      Int.ceil_intCast] at h1
    rw [show ((2:ℝ) / 3600 - -2 / 3600) / (0.1 / 3600) = ((40:ℤ):ℝ) by norm_num,
      Int.ceil_intCast] at h2
    exact ⟨h1, h2⟩
